import Mathlib

/-!
Verification of `ForcePointActuator` (SoftRobots.Inverse).

Shallow embedding of
`src/SoftRobots.Inverse/component/constraint/ForcePointActuator.inl`
(namespace `softrobotsinverse::constraint`, template class
`ForcePointActuator<DataTypes>` instantiated at 3-d types, so
`Deriv::total_size = 3`).

Modelling conventions:

* `Real` scalars of the source are modelled by `ℚ` so that every
  definition is executable and decidable on concrete inputs.
* The source computes `direction.norm()` (a real square root).  Square
  roots are irrational, so wherever a norm value is needed the Lean
  function takes it as an explicit argument `n`, and theorems carry the
  hypotheses `0 ≤ n` and `n ^ 2 = normSq direction` tying it to the
  squared Euclidean norm.  The comparison `direction.norm() < 1e-10` is
  embedded as `normSq direction < normThreshold ^ 2`, which is
  equivalent because both sides of the source comparison are
  non-negative.
* `sofa::Data<T>` cells are flattened into plain fields; a `Data` that
  may or may not have been explicitly set (`isSet()`) together with its
  value is an `Option` field, with `getValue`'s declared default
  recovered by `Option.getD`.
* `sofa::type::vector<Real>` is `List ℚ`; `resize(n, v)` keeps the
  first `n` elements and pads with `v` (`resizeFill`); in-bounds
  element writes are `List.set`, in-bounds reads `List.getD`.  The
  source's `operator[]` is unchecked; the separate `...Checked`
  variants return `none` exactly when an access would be out of
  bounds.
-/

namespace ForcePointActuator

/-- Type of a 3-vector (`Deriv`/`Vec3` of the source at `total_size = 3`). -/
abbrev Vec3 : Type := Fin 3 → ℚ

/-- Squared Euclidean norm of a `Vec3`; the source's `norm()` is its
square root. -/
def normSq (d : Vec3) : ℚ := d 0 * d 0 + d 1 * d 1 + d 2 * d 2

/-- Threshold `1e-10` of `initData` (`d_direction.getValue().norm() < 1e-10`). -/
def normThreshold : ℚ := 1 / 10 ^ 10

/-- Value of `Deriv::total_size` for the 3-d instantiations. -/
def totalSize : ℕ := 3

/-- Configuration `Data` fields of the actuator.  An `Option` field is
`some v` exactly when the corresponding `Data` `isSet()` with value `v`. -/
structure Config where
  /-- Field `d_indices`: point indices of the body on which the force acts. -/
  indices : List ℕ
  /-- Field `d_direction`: force direction; near-zero norm selects free mode. -/
  direction : Vec3
  /-- Field `d_maxForce` (optional). -/
  maxForce : Option ℚ
  /-- Field `d_minForce` (optional). -/
  minForce : Option ℚ
  /-- Field `d_initForce` (optional, `getValue` default `0`). -/
  initForce : Option ℚ
  /-- Field `d_maxForceVariation` (optional). -/
  maxForceVariation : Option ℚ
  /-- Field `d_epsilon` (key `penalty`, optional, `getValue` default `1e-3`). -/
  epsilon : Option ℚ

/-- Value of `d_initForce.getValue()`: the set value, or the declared
default `0`. -/
def Config.initForceValue (cfg : Config) : ℚ := cfg.initForce.getD 0

/-- Mutable state of the actuator: the `m_` members and the output
`Data` cells `d_force`, `d_displacement`, `d_constraintIndex`. -/
structure ActuatorState where
  /-- Member `m_dim`: 3 in free mode, 1 in fixed-direction mode. -/
  dim : ℕ
  /-- Cell `d_force`: currently applied force component(s). -/
  force : List ℚ
  /-- Cell `d_displacement`. -/
  displacement : ℚ
  /-- Member `m_lambdaMin`. -/
  lambdaMin : List ℚ
  /-- Member `m_lambdaMax`. -/
  lambdaMax : List ℚ
  /-- Member `m_lambdaInit`. -/
  lambdaInit : List ℚ
  /-- Member `m_hasLambdaMin`. -/
  hasLambdaMin : Bool
  /-- Member `m_hasLambdaMax`. -/
  hasLambdaMax : Bool
  /-- Member `m_hasLambdaInit`. -/
  hasLambdaInit : Bool
  /-- Member `m_hasEpsilon`. -/
  hasEpsilon : Bool
  /-- Member `m_epsilon`. -/
  epsilon : ℚ
  /-- Cell `d_constraintIndex`. -/
  constraintIndex : ℕ
  /-- Member `m_nbLines`. -/
  nbLines : ℕ
deriving DecidableEq

/-- Modelled from the spec: the state of the base-class members at
construction, before the first `init`.  The members `m_lambdaInit`,
`m_lambdaMax`, `m_lambdaMin`, `d_force` are declared in base-class
headers that are not part of the sources here; per the spec's lifecycle
("State is (re)created at `init`/`reinit`"), before the first `init`
the sequences are empty default-constructed vectors, the `has...` flags
are false, and the scalar outputs hold their declared defaults
(`d_displacement = 0`). -/
def constructedState : ActuatorState where
  dim := 0
  force := []
  displacement := 0
  lambdaMin := []
  lambdaMax := []
  lambdaInit := []
  hasLambdaMin := false
  hasLambdaMax := false
  hasLambdaInit := false
  hasEpsilon := false
  epsilon := 0
  constraintIndex := 0
  nbLines := 0

/-- Semantics of `std::vector::resize(n, v)`: keep the first `n`
elements, pad with `v` up to length `n`. -/
def resizeFill (l : List ℚ) (n : ℕ) (v : ℚ) : List ℚ :=
  l.take n ++ List.replicate (n - l.length) v

/-- Embedding of `ForcePointActuator::initData()` (the private helper
called by `init()` and `reinit()`), lines 130–155 of the source.  Sets
`m_dim` from the direction's norm, latches `epsilon`/`initForce` when
set (writing `m_lambdaInit[0]` *before* the resize, as the source
does — `List.set` leaves an empty list unchanged, while the source's
unchecked write would target storage that does not exist;
`initDataChecked` makes that access explicit), sets `d_force` to a
fresh vector of length `m_dim` filled with `d_initForce.getValue()`,
and resizes the three lambda vectors to `m_dim`. -/
def initData (cfg : Config) (st : ActuatorState) : ActuatorState :=
  let dim := if normSq cfg.direction < normThreshold ^ 2 then totalSize else 1
  let st1 :=
    match cfg.epsilon with
    | some e => { st with dim := dim, hasEpsilon := true, epsilon := e }
    | none => { st with dim := dim }
  let st2 :=
    match cfg.initForce with
    | some v => { st1 with hasLambdaInit := true, lambdaInit := st1.lambdaInit.set 0 v }
    | none => st1
  let st3 := { st2 with force := List.replicate dim cfg.initForceValue }
  { st3 with
    lambdaInit := resizeFill st3.lambdaInit dim 0
    lambdaMax := resizeFill st3.lambdaMax dim 0
    lambdaMin := resizeFill st3.lambdaMin dim 0 }

/-- Variant of `initData` with the source's unchecked write
`m_lambdaInit[0] = d_initForce.getValue()` made explicit: the write
happens before the resize, so it is out of bounds (`none`) exactly when
`d_initForce` is set and `m_lambdaInit` is empty at entry. -/
def initDataChecked (cfg : Config) (st : ActuatorState) : Option ActuatorState :=
  match cfg.initForce with
  | some _ => if st.lambdaInit = [] then none else some (initData cfg st)
  | none => some (initData cfg st)

/-- Re-centering rule of `updateLimit` for one `m_lambdaMin` entry:
`if (rabs(lambdaMin[j] - force[j]) >= maxForceVariation || !d_minForce.isSet())
 lambdaMin[j] = force[j] - maxForceVariation`. -/
def recenterMin (minSet : Bool) (dv f a : ℚ) : ℚ :=
  if dv ≤ |a - f| ∨ minSet = false then f - dv else a

/-- Re-centering rule of `updateLimit` for one `m_lambdaMax` entry:
`if (rabs(lambdaMax[j] - force[j]) >= maxForceVariation || !d_maxForce.isSet())
 lambdaMax[j] = force[j] + maxForceVariation`. -/
def recenterMax (maxSet : Bool) (dv f a : ℚ) : ℚ :=
  if dv ≤ |a - f| ∨ maxSet = false then f + dv else a

/-- One iteration `j` of the rate-limiting loop of `updateLimit`:
update entry `j` of the pair (`m_lambdaMin`, `m_lambdaMax`) in place. -/
def recenterAt (minSet maxSet : Bool) (dv : ℚ) (force : List ℚ) (j : ℕ)
    (p : List ℚ × List ℚ) : List ℚ × List ℚ :=
  (p.1.set j (recenterMin minSet dv (force.getD j 0) (p.1.getD j 0)),
   p.2.set j (recenterMax maxSet dv (force.getD j 0) (p.2.getD j 0)))

/-- Broadcast loops of `updateLimit`
(`for (auto& lambda : m_lambdaMax) lambda = d_maxForce.getValue();`). -/
def broadcast (v : ℚ) (l : List ℚ) : List ℚ := l.map (fun _ => v)

/-- Derived view of the two conditional broadcasts at the top of
`updateLimit`: broadcast the bound's value over the list when the bound
is set, leave the list unchanged otherwise. -/
def optBroadcast (mo : Option ℚ) (l : List ℚ) : List ℚ :=
  match mo with
  | some m => broadcast m l
  | none => l

/-- Embedding of `ForcePointActuator::updateLimit()`, lines 177–212 of
the source.  If `d_maxForce` is set, broadcast it into `m_lambdaMax`;
if `d_minForce` is set, broadcast it into `m_lambdaMin`; then, if
`d_maxForceVariation` is set, run the re-centering loop over
`j < Deriv::total_size` when `m_dim > 1`, or over the single entry
`j = 0` otherwise (the source's loop is unrolled here since
`total_size = 3`). -/
def updateLimit (cfg : Config) (st : ActuatorState) : ActuatorState :=
  let lmax :=
    match cfg.maxForce with
    | some m => broadcast m st.lambdaMax
    | none => st.lambdaMax
  let lmin :=
    match cfg.minForce with
    | some m => broadcast m st.lambdaMin
    | none => st.lambdaMin
  match cfg.maxForceVariation with
  | none => { st with lambdaMin := lmin, lambdaMax := lmax }
  | some dv =>
    let ms := cfg.minForce.isSome
    let xs := cfg.maxForce.isSome
    if st.dim > 1 then
      let p := recenterAt ms xs dv st.force 2
        (recenterAt ms xs dv st.force 1
          (recenterAt ms xs dv st.force 0 (lmin, lmax)))
      { st with lambdaMin := p.1, lambdaMax := p.2 }
    else
      let p := recenterAt ms xs dv st.force 0 (lmin, lmax)
      { st with lambdaMin := p.1, lambdaMax := p.2 }

/-- Variant of `updateLimit` with the source's unchecked indexing
`m_lambdaMin[j]`, `m_lambdaMax[j]`, `d_force.getValue()[j]` of the
rate-limiting loop made explicit: `none` exactly when the loop would
touch an index out of bounds (the broadcast loops are range-`for`,
never out of bounds). -/
def updateLimitChecked (cfg : Config) (st : ActuatorState) : Option ActuatorState :=
  match cfg.maxForceVariation with
  | none => some (updateLimit cfg st)
  | some _ =>
    let n := if st.dim > 1 then totalSize else 1
    if n ≤ st.lambdaMin.length ∧ n ≤ st.lambdaMax.length ∧ n ≤ st.force.length then
      some (updateLimit cfg st)
    else none

/-- Embedding of `ForcePointActuator::initLimit()`, lines 158–174 of the
source: latch `m_hasLambdaMax`/`m_hasLambdaMin` from which bounds are
set (`maxForceVariation` forces both), then `updateLimit()`. -/
def initLimit (cfg : Config) (st : ActuatorState) : ActuatorState :=
  let st1 := if cfg.maxForce.isSome then { st with hasLambdaMax := true } else st
  let st2 := if cfg.minForce.isSome then { st1 with hasLambdaMin := true } else st1
  let st3 :=
    if cfg.maxForceVariation.isSome then
      { st2 with hasLambdaMax := true, hasLambdaMin := true }
    else st2
  updateLimit cfg st3

/-- State-mutating part shared by `init()` and `reinit()`:
`initData(); initLimit();` (`init()` additionally calls the base
`init` and emits a diagnostic when no mechanical state is attached,
neither of which touches the state modelled here). -/
def reinitState (cfg : Config) (st : ActuatorState) : ActuatorState :=
  initLimit cfg (initData cfg st)

/-- Unit vector along world axis `j` built by `buildConstraintMatrix`
in free mode (`Deriv dir; dir[j] = 1;` on a zero-initialised `Deriv`). -/
def unitVec (j : ℕ) : Vec3 := fun k => if k.val = j then 1 else 0

/-- Entries of one Jacobian row: the loop
`for (i < nbIndices) if (indices[i] < m_state->getSize())
 rowIterator.addCol(indices[i], dir);` — every in-range point index, in
order, paired with the direction vector; out-of-range indices are
skipped. -/
def rowEntries (indices : List ℕ) (stateSize : ℕ) (dir : Vec3) : List (ℕ × Vec3) :=
  (indices.filter fun i => decide (i < stateSize)).map fun i => (i, dir)

/-- Output of `buildConstraintMatrix`: the emitted Jacobian rows (in
emission order, one `writeLine` each, with their `addCol` entries), the
advanced solver row counter `cIndex`, and the updated actuator state. -/
structure BuildOutput where
  /-- Rows written into `cMatrix`, as (row index, column entries). -/
  rows : List (ℕ × List (ℕ × Vec3))
  /-- The solver's row counter after the call (`cIndex`, passed by
  reference in the source). -/
  cIndex : ℕ
  /-- The actuator state after the call. -/
  state : ActuatorState

/-- Embedding of `ForcePointActuator::buildConstraintMatrix`, lines
215–260 of the source.  Stores the incoming row offset in
`d_constraintIndex`; in free mode (`m_dim > 1`) writes one row per
world axis `j < Deriv::total_size`, each holding `unitVec j` at every
in-range point index, incrementing `cIndex` per row; in fixed mode
writes a single row holding `direction / direction.norm()` at every
in-range point index.  The real norm value is passed as `dirNorm` (see
the module comment).  Finally `m_nbLines = cIndex - constraintIndex`. -/
def buildConstraintMatrix (cfg : Config) (stateSize : ℕ) (dirNorm : ℚ)
    (st : ActuatorState) (cIndex : ℕ) : BuildOutput :=
  let st1 := { st with constraintIndex := cIndex }
  let ci := st1.constraintIndex
  if st1.dim > 1 then
    let rows := (List.range totalSize).map
      fun j => (ci + j, rowEntries cfg.indices stateSize (unitVec j))
    let c2 := cIndex + totalSize
    { rows := rows, cIndex := c2, state := { st1 with nbLines := c2 - ci } }
  else
    let dir : Vec3 := fun k => cfg.direction k / dirNorm
    let rows := [(ci, rowEntries cfg.indices stateSize dir)]
    let c2 := cIndex + 1
    { rows := rows, cIndex := c2, state := { st1 with nbLines := c2 - ci } }

/-- Force-vector update of `storeResults`: in free mode
`force[j] = lambda[j]` for `j < Deriv::total_size`, in fixed mode
`force[0] = lambda[0]`. -/
def writeForce (dim : ℕ) (force lambda : List ℚ) : List ℚ :=
  if dim > 1 then
    ((force.set 0 (lambda.getD 0 0)).set 1 (lambda.getD 1 0)).set 2 (lambda.getD 2 0)
  else
    force.set 0 (lambda.getD 0 0)

/-- First half of `storeResults`: `d_displacement.setValue(delta[0])`
and the copy of `lambda` into `d_force`. -/
def writeStage (st : ActuatorState) (lambda delta : List ℚ) : ActuatorState :=
  { st with
    displacement := delta.getD 0 0
    force := writeForce st.dim st.force lambda }

/-- Embedding of `ForcePointActuator::storeResults`, lines 283–301 of
the source: write `displacement` and `force`, refresh the bounds with
`updateLimit()`, then forward to `Actuator<DataTypes>::storeResults`.
The base-class hook lives in a header outside these sources; per the
spec it is cross-cutting bookkeeping, abstracted here as the function
argument `baseStore` applied last. -/
def storeResults (cfg : Config) (baseStore : ActuatorState → ActuatorState)
    (st : ActuatorState) (lambda delta : List ℚ) : ActuatorState :=
  baseStore (updateLimit cfg (writeStage st lambda delta))

/-- Variant of `storeResults` with the source's unchecked indexing made
explicit: `delta[0]` requires `delta` non-empty; the force copy reads
`lambda[j]` and writes `force[j]` for `j < Deriv::total_size` in free
mode (`j = 0` in fixed mode); the final `updateLimit()` is
`updateLimitChecked`.  `none` exactly when one of those accesses is out
of bounds. -/
def storeResultsChecked (cfg : Config) (baseStore : ActuatorState → ActuatorState)
    (st : ActuatorState) (lambda delta : List ℚ) : Option ActuatorState :=
  if delta = [] then none
  else
    let n := if st.dim > 1 then totalSize else 1
    if n ≤ lambda.length ∧ n ≤ st.force.length then
      (updateLimitChecked cfg (writeStage st lambda delta)).map baseStore
    else none

/-- Direction vector `(1,0,0)` used in concrete scenarios. -/
def dirX : Vec3 := fun k => if k.val = 0 then 1 else 0

/-- Configuration of the C1 scenario: `direction = (1,0,0)`,
`maxForce = 10`, `minForce = -10`, `maxForceVariation = 1`. -/
def cfgScenario1 : Config where
  indices := [0]
  direction := dirX
  maxForce := some 10
  minForce := some (-10)
  initForce := none
  maxForceVariation := some 1
  epsilon := none

/-- Fixed-direction actuator state of the C1 scenario with applied
force `[3.0]`. -/
def stScenario1 : ActuatorState :=
  { constructedState with
    dim := 1
    force := [3]
    lambdaMin := [0]
    lambdaMax := [0]
    lambdaInit := [0] }

/-- Configuration with `maxForceVariation = 1` and neither `minForce`
nor `maxForce`, for the C2 witness. -/
def cfgScenario2 : Config where
  indices := []
  direction := dirX
  maxForce := none
  minForce := none
  initForce := none
  maxForceVariation := some 1
  epsilon := none

/-- Fixed-direction state for the C2 witness. -/
def stScenario2 : ActuatorState :=
  { constructedState with
    dim := 1
    force := [3]
    lambdaMin := [0]
    lambdaMax := [0]
    lambdaInit := [0] }

/-- Zero direction vector (free mode) used in concrete scenarios. -/
def dirZero : Vec3 := fun _ => 0

/-- Configuration for the C3 witness: `direction = (1,0,0)` (norm 1). -/
def cfgScenario3 : Config where
  indices := [0, 1]
  direction := dirX
  maxForce := none
  minForce := none
  initForce := some 2
  maxForceVariation := none
  epsilon := none

/-- Free-mode state of dimension 3 for the C4 witness. -/
def stScenario4 : ActuatorState :=
  { constructedState with
    dim := 3
    force := [2, 2, 2]
    lambdaMin := [0, 0, 0]
    lambdaMax := [0, 0, 0]
    lambdaInit := [0, 0, 0] }

/-- Configuration for the C4/C9 witnesses: free mode, two point
indices of which one is out of range for a body of size 1. -/
def cfgScenario4 : Config where
  indices := [0, 5]
  direction := dirZero
  maxForce := none
  minForce := none
  initForce := none
  maxForceVariation := none
  epsilon := none

/-- Configuration for the C5 witness: fixed direction, no bounds. -/
def cfgScenario5 : Config where
  indices := [0]
  direction := dirX
  maxForce := none
  minForce := none
  initForce := none
  maxForceVariation := none
  epsilon := none

/-- Fixed-direction (dimension 1) state for the C5/C9 witnesses. -/
def stScenario5 : ActuatorState :=
  { constructedState with
    dim := 1
    force := [0]
    lambdaMin := [0]
    lambdaMax := [0]
    lambdaInit := [0] }

/-- Configuration for the C8 counterexample: only `maxForce = -1` is
set, with a fixed direction. -/
def cfgScenario8 : Config where
  indices := []
  direction := dirX
  maxForce := some (-1)
  minForce := none
  initForce := none
  maxForceVariation := none
  epsilon := none

/-- Configuration for the C10 counterexample: `initForce` is explicitly
set. -/
def cfgScenario10 : Config where
  indices := []
  direction := dirX
  maxForce := none
  minForce := none
  initForce := some 2
  maxForceVariation := none
  epsilon := none


/-! Helper lemmas about the embedded operations. -/

theorem resizeFill_length (l : List ℚ) (n : ℕ) (v : ℚ) :
    (resizeFill l n v).length = n := by
  simp [resizeFill]
  omega

theorem broadcast_length (v : ℚ) (l : List ℚ) :
    (broadcast v l).length = l.length := by
  simp [broadcast]

theorem broadcast_eq_replicate (v : ℚ) (l : List ℚ) :
    broadcast v l = List.replicate l.length v := by
  simp [broadcast, List.map_const']

theorem updateLimit_dim (cfg : Config) (st : ActuatorState) :
    (updateLimit cfg st).dim = st.dim := by
  unfold updateLimit
  cases cfg.maxForceVariation with
  | none => rfl
  | some dv => dsimp only; split <;> rfl

theorem updateLimit_force (cfg : Config) (st : ActuatorState) :
    (updateLimit cfg st).force = st.force := by
  unfold updateLimit
  cases cfg.maxForceVariation with
  | none => rfl
  | some dv => dsimp only; split <;> rfl

theorem updateLimit_displacement (cfg : Config) (st : ActuatorState) :
    (updateLimit cfg st).displacement = st.displacement := by
  unfold updateLimit
  cases cfg.maxForceVariation with
  | none => rfl
  | some dv => dsimp only; split <;> rfl

theorem updateLimit_lambdaInit (cfg : Config) (st : ActuatorState) :
    (updateLimit cfg st).lambdaInit = st.lambdaInit := by
  unfold updateLimit
  cases cfg.maxForceVariation with
  | none => rfl
  | some dv => dsimp only; split <;> rfl

theorem updateLimit_lambdaMin_length (cfg : Config) (st : ActuatorState) :
    (updateLimit cfg st).lambdaMin.length = st.lambdaMin.length := by
  unfold updateLimit
  cases cfg.maxForceVariation with
  | none =>
    dsimp only
    cases cfg.minForce <;> simp [broadcast_length]
  | some dv =>
    dsimp only
    split <;> cases cfg.minForce <;> simp [recenterAt, broadcast_length]

theorem updateLimit_lambdaMax_length (cfg : Config) (st : ActuatorState) :
    (updateLimit cfg st).lambdaMax.length = st.lambdaMax.length := by
  unfold updateLimit
  cases cfg.maxForceVariation with
  | none =>
    dsimp only
    cases cfg.maxForce <;> simp [broadcast_length]
  | some dv =>
    dsimp only
    split <;> cases cfg.maxForce <;> simp [recenterAt, broadcast_length]

theorem initLimit_dim (cfg : Config) (st : ActuatorState) :
    (initLimit cfg st).dim = st.dim := by
  unfold initLimit
  rw [updateLimit_dim]
  split <;> split <;> split <;> rfl

theorem initLimit_force (cfg : Config) (st : ActuatorState) :
    (initLimit cfg st).force = st.force := by
  unfold initLimit
  rw [updateLimit_force]
  split <;> split <;> split <;> rfl

theorem initLimit_lambdaInit (cfg : Config) (st : ActuatorState) :
    (initLimit cfg st).lambdaInit = st.lambdaInit := by
  unfold initLimit
  rw [updateLimit_lambdaInit]
  split <;> split <;> split <;> rfl

theorem initLimit_lambdaMin_length (cfg : Config) (st : ActuatorState) :
    (initLimit cfg st).lambdaMin.length = st.lambdaMin.length := by
  unfold initLimit
  rw [updateLimit_lambdaMin_length]
  split <;> split <;> split <;> rfl

theorem initLimit_lambdaMax_length (cfg : Config) (st : ActuatorState) :
    (initLimit cfg st).lambdaMax.length = st.lambdaMax.length := by
  unfold initLimit
  rw [updateLimit_lambdaMax_length]
  split <;> split <;> split <;> rfl

theorem initData_dim (cfg : Config) (st : ActuatorState) :
    (initData cfg st).dim =
      if normSq cfg.direction < normThreshold ^ 2 then 3 else 1 := by
  unfold initData
  cases cfg.epsilon <;> cases cfg.initForce <;> rfl

theorem initData_force (cfg : Config) (st : ActuatorState) :
    (initData cfg st).force =
      List.replicate (initData cfg st).dim cfg.initForceValue := by
  unfold initData
  cases cfg.epsilon <;> cases cfg.initForce <;> rfl

theorem initData_lambdaMin_length (cfg : Config) (st : ActuatorState) :
    (initData cfg st).lambdaMin.length = (initData cfg st).dim := by
  unfold initData
  cases cfg.epsilon <;> cases cfg.initForce <;> simp [resizeFill_length]

theorem initData_lambdaMax_length (cfg : Config) (st : ActuatorState) :
    (initData cfg st).lambdaMax.length = (initData cfg st).dim := by
  unfold initData
  cases cfg.epsilon <;> cases cfg.initForce <;> simp [resizeFill_length]

theorem initData_lambdaInit_length (cfg : Config) (st : ActuatorState) :
    (initData cfg st).lambdaInit.length = (initData cfg st).dim := by
  unfold initData
  cases cfg.epsilon <;> cases cfg.initForce <;> simp [resizeFill_length]

/-! Claim theorems. -/

/-- C3: after every init or reinit, `dimension = 3` whenever the
configured direction vector has Euclidean norm strictly less than
`1e-10`, and `dimension = 1` otherwise, for every possible direction
value (the real norm is passed as `n` with `0 ≤ n` and
`n ^ 2 = normSq direction`). -/
theorem C3_dim_from_direction_norm (cfg : Config) (st : ActuatorState) (n : ℚ)
    (hn0 : 0 ≤ n) (hn : n ^ 2 = normSq cfg.direction) :
    (reinitState cfg st).dim = if n < normThreshold then 3 else 1 := by
  have h1 : (reinitState cfg st).dim =
      if normSq cfg.direction < normThreshold ^ 2 then 3 else 1 := by
    unfold reinitState
    rw [initLimit_dim, initData_dim]
  have ht : 0 < normThreshold := by norm_num [normThreshold]
  rw [h1]
  by_cases h : n < normThreshold
  · rw [if_pos h, if_pos (by nlinarith)]
  · rw [if_neg h, if_neg (by push_neg at h ⊢; nlinarith)]

/-- Witness for C3 at `direction = (1,0,0)` (norm 1, fixed mode). -/
theorem C3_dim_from_direction_norm_witness :
    (0 : ℚ) ≤ 1 ∧ (1 : ℚ) ^ 2 = normSq cfgScenario3.direction ∧
    (reinitState cfgScenario3 constructedState).dim =
      if (1 : ℚ) < normThreshold then 3 else 1 :=
  ⟨by decide, by simp [cfgScenario3, normSq, dirX],
    C3_dim_from_direction_norm cfgScenario3 constructedState 1 (by decide)
      (by simp [cfgScenario3, normSq, dirX])⟩

/-- C6: after every init or reinit, the sequences `force`, `lambdaMin`,
`lambdaMax` and `lambdaInit` each have length exactly `dimension`, and
every entry of `force` equals the configured `initForce`
(`d_initForce.getValue()`, default 0). -/
theorem C6_init_lengths_and_force (cfg : Config) (st : ActuatorState) :
    (reinitState cfg st).force.length = (reinitState cfg st).dim ∧
    (reinitState cfg st).lambdaMin.length = (reinitState cfg st).dim ∧
    (reinitState cfg st).lambdaMax.length = (reinitState cfg st).dim ∧
    (reinitState cfg st).lambdaInit.length = (reinitState cfg st).dim ∧
    ∀ x ∈ (reinitState cfg st).force, x = cfg.initForceValue := by
  unfold reinitState
  rw [initLimit_force, initLimit_dim, initLimit_lambdaMin_length,
    initLimit_lambdaMax_length, initLimit_lambdaInit, initData_force]
  refine ⟨by simp, initData_lambdaMin_length cfg st, initData_lambdaMax_length cfg st,
    initData_lambdaInit_length cfg st, ?_⟩
  intro x hx
  exact List.eq_of_mem_replicate hx


/-- C1: for a fixed-direction actuator (`dimension = 1`) with
`maxForce`, `minForce` and `maxForceVariation = dv` all set,
`updateLimit()` broadcasts `maxForce` into `lambdaMax` and `minForce`
into `lambdaMin`, then re-centers each bound around the current applied
force exactly when that bound differs from the force by at least `dv`;
in particular with `maxForce = 10`, `minForce = -10`, `dv = 1` and
`force = [3]`, afterwards `lambdaMin = [2]` and `lambdaMax = [4]`. -/
theorem C1_fixed_direction_update (cfg : Config) (st : ActuatorState) (M m dv : ℚ)
    (hM : cfg.maxForce = some M) (hm : cfg.minForce = some m)
    (hdv : cfg.maxForceVariation = some dv) (hdim : st.dim = 1)
    (hmin : st.lambdaMin.length = 1) (hmax : st.lambdaMax.length = 1)
    (hf : st.force.length = 1) :
    ((updateLimit cfg st).lambdaMin =
        [if dv ≤ |m - st.force.getD 0 0| then st.force.getD 0 0 - dv else m] ∧
      (updateLimit cfg st).lambdaMax =
        [if dv ≤ |M - st.force.getD 0 0| then st.force.getD 0 0 + dv else M]) ∧
    (M = 10 → m = -10 → dv = 1 → st.force = [3] →
      (updateLimit cfg st).lambdaMin = [2] ∧ (updateLimit cfg st).lambdaMax = [4]) := by
  obtain ⟨a, ha⟩ := List.length_eq_one.mp hmin
  obtain ⟨b, hb⟩ := List.length_eq_one.mp hmax
  obtain ⟨f0, hf0⟩ := List.length_eq_one.mp hf
  have key : (updateLimit cfg st).lambdaMin =
        [if dv ≤ |m - st.force.getD 0 0| then st.force.getD 0 0 - dv else m] ∧
      (updateLimit cfg st).lambdaMax =
        [if dv ≤ |M - st.force.getD 0 0| then st.force.getD 0 0 + dv else M] := by
    unfold updateLimit
    rw [hM, hm, hdv]
    simp [hdim, ha, hb, hf0, recenterAt, recenterMin, recenterMax, broadcast]
  refine ⟨key, ?_⟩
  rintro rfl rfl rfl hforce
  rw [key.1, key.2, hforce]
  norm_num

/-- Witness for C1: the spec scenario `maxForce = 10`, `minForce = -10`,
`maxForceVariation = 1`, `force = [3]`. -/
theorem C1_fixed_direction_update_witness :
    (updateLimit cfgScenario1 stScenario1).lambdaMin = [2] ∧
    (updateLimit cfgScenario1 stScenario1).lambdaMax = [4] :=
  (C1_fixed_direction_update cfgScenario1 stScenario1 10 (-10) 1
    rfl rfl rfl rfl rfl rfl rfl).2 rfl rfl rfl rfl

/-- C2: with `maxForceVariation = dv` set and neither `minForce` nor
`maxForce` set, after any `updateLimit()` call
`lambdaMax[j] - force[j] = dv` and `force[j] - lambdaMin[j] = dv` for
every axis `j < dimension`. -/
theorem C2_pure_rate_band (cfg : Config) (st : ActuatorState) (dv : ℚ)
    (hdv : cfg.maxForceVariation = some dv) (hm : cfg.minForce = none)
    (hM : cfg.maxForce = none) (hdim : st.dim = 1 ∨ st.dim = 3)
    (hmin : st.lambdaMin.length = st.dim) (hmax : st.lambdaMax.length = st.dim)
    (hf : st.force.length = st.dim) :
    ∀ j < (updateLimit cfg st).dim,
      (updateLimit cfg st).lambdaMax.getD j 0 - (updateLimit cfg st).force.getD j 0 = dv ∧
      (updateLimit cfg st).force.getD j 0 - (updateLimit cfg st).lambdaMin.getD j 0 = dv := by
  rw [updateLimit_dim, updateLimit_force]
  rcases hdim with h1 | h3
  · rw [h1] at hmin hmax hf
    obtain ⟨a, ha⟩ := List.length_eq_one.mp hmin
    obtain ⟨b, hb⟩ := List.length_eq_one.mp hmax
    obtain ⟨f0, hf0⟩ := List.length_eq_one.mp hf
    intro j hj
    rw [h1] at hj
    interval_cases j
    unfold updateLimit
    rw [hM, hm, hdv]
    simp [h1, ha, hb, hf0, recenterAt, recenterMin, recenterMax]
  · rw [h3] at hmin hmax hf
    obtain ⟨a0, a1, a2, ha⟩ := List.length_eq_three.mp hmin
    obtain ⟨b0, b1, b2, hb⟩ := List.length_eq_three.mp hmax
    obtain ⟨f0, f1, f2, hf0⟩ := List.length_eq_three.mp hf
    intro j hj
    rw [h3] at hj
    unfold updateLimit
    rw [hM, hm, hdv]
    simp only [h3]
    interval_cases j <;>
      simp [ha, hb, hf0, recenterAt, recenterMin, recenterMax]

/-- Witness for C2 at `dv = 1`, fixed mode, `force = [3]`. -/
theorem C2_pure_rate_band_witness :
    (updateLimit cfgScenario2 stScenario2).lambdaMax.getD 0 0 -
      (updateLimit cfgScenario2 stScenario2).force.getD 0 0 = 1 ∧
    (updateLimit cfgScenario2 stScenario2).force.getD 0 0 -
      (updateLimit cfgScenario2 stScenario2).lambdaMin.getD 0 0 = 1 :=
  C2_pure_rate_band cfgScenario2 stScenario2 1 rfl rfl rfl (Or.inl rfl) rfl rfl rfl 0
    (by rw [updateLimit_dim]; decide)


theorem getD_set_ne (l : List ℚ) (x d : ℚ) (n m : ℕ) (h : n ≠ m) :
    (l.set n x).getD m d = l.getD m d := by
  simp [List.getD, List.getElem?_set_ne h]

theorem recenterMin_false (dv f a : ℚ) : recenterMin false dv f a = f - dv := by
  simp [recenterMin]

theorem recenterMax_false (dv f a : ℚ) : recenterMax false dv f a = f + dv := by
  simp [recenterMax]

theorem broadcast_broadcast (v : ℚ) (l : List ℚ) :
    broadcast v (broadcast v l) = broadcast v l := by
  simp [broadcast]

theorem broadcast_length_eq (v : ℚ) {l₁ l₂ : List ℚ} (h : l₁.length = l₂.length) :
    broadcast v l₁ = broadcast v l₂ := by
  rw [broadcast_eq_replicate, broadcast_eq_replicate, h]

theorem set3_idem (l : List ℚ) (c0 c1 c2 : ℚ) :
    (((((l.set 0 c0).set 1 c1).set 2 c2).set 0 c0).set 1 c1).set 2 c2
      = ((l.set 0 c0).set 1 c1).set 2 c2 := by
  rw [List.set_comm c2 c0 _ (by decide), List.set_comm c1 c0 _ (by decide),
    List.set_set c0 c0, List.set_comm c2 c1 _ (by decide), List.set_set c2 c2,
    List.set_set c1 c1]

theorem chain3_fst (ms xs : Bool) (dv : ℚ) (F a b : List ℚ) :
    (recenterAt ms xs dv F 2 (recenterAt ms xs dv F 1
        (recenterAt ms xs dv F 0 (a, b)))).1
      = ((a.set 0 (recenterMin ms dv (F.getD 0 0) (a.getD 0 0))).set 1
          (recenterMin ms dv (F.getD 1 0) (a.getD 1 0))).set 2
          (recenterMin ms dv (F.getD 2 0) (a.getD 2 0)) := by
  simp only [recenterAt]
  rw [getD_set_ne a _ _ 0 1 (by decide), getD_set_ne _ _ _ 1 2 (by decide),
    getD_set_ne a _ _ 0 2 (by decide)]

theorem chain3_snd (ms xs : Bool) (dv : ℚ) (F a b : List ℚ) :
    (recenterAt ms xs dv F 2 (recenterAt ms xs dv F 1
        (recenterAt ms xs dv F 0 (a, b)))).2
      = ((b.set 0 (recenterMax xs dv (F.getD 0 0) (b.getD 0 0))).set 1
          (recenterMax xs dv (F.getD 1 0) (b.getD 1 0))).set 2
          (recenterMax xs dv (F.getD 2 0) (b.getD 2 0)) := by
  simp only [recenterAt]
  rw [getD_set_ne b _ _ 0 1 (by decide), getD_set_ne _ _ _ 1 2 (by decide),
    getD_set_ne b _ _ 0 2 (by decide)]

theorem optBroadcast_length (mo : Option ℚ) (l : List ℚ) :
    (optBroadcast mo l).length = l.length := by
  cases mo <;> simp [optBroadcast, broadcast_length]

theorem optBroadcast_length_eq (mo : Option ℚ) {l₁ l₂ : List ℚ}
    (h : l₁.length = l₂.length) : optBroadcast mo l₁ = optBroadcast mo l₂ ∨ mo = none := by
  cases mo with
  | none => exact Or.inr rfl
  | some m => exact Or.inl (broadcast_length_eq m h)

/-- Characterisation of `updateLimit` when `maxForceVariation` is not
set: only the broadcasts run. -/
theorem updateLimit_char_none (cfg : Config) (st : ActuatorState)
    (h : cfg.maxForceVariation = none) :
    (updateLimit cfg st).lambdaMin = optBroadcast cfg.minForce st.lambdaMin ∧
    (updateLimit cfg st).lambdaMax = optBroadcast cfg.maxForce st.lambdaMax := by
  unfold updateLimit
  rw [h]
  cases cfg.minForce <;> cases cfg.maxForce <;> simp [optBroadcast]

/-- Characterisation of `updateLimit` with `maxForceVariation = dv` in
free mode (`m_dim > 1`): broadcasts, then the three re-centering
steps, expressed entrywise over the broadcast lists. -/
theorem updateLimit_char3 (cfg : Config) (st : ActuatorState) (dv : ℚ)
    (hdv : cfg.maxForceVariation = some dv) (hd : st.dim > 1) :
    (updateLimit cfg st).lambdaMin =
      (((optBroadcast cfg.minForce st.lambdaMin).set 0
          (recenterMin cfg.minForce.isSome dv (st.force.getD 0 0)
            ((optBroadcast cfg.minForce st.lambdaMin).getD 0 0))).set 1
          (recenterMin cfg.minForce.isSome dv (st.force.getD 1 0)
            ((optBroadcast cfg.minForce st.lambdaMin).getD 1 0))).set 2
          (recenterMin cfg.minForce.isSome dv (st.force.getD 2 0)
            ((optBroadcast cfg.minForce st.lambdaMin).getD 2 0)) ∧
    (updateLimit cfg st).lambdaMax =
      (((optBroadcast cfg.maxForce st.lambdaMax).set 0
          (recenterMax cfg.maxForce.isSome dv (st.force.getD 0 0)
            ((optBroadcast cfg.maxForce st.lambdaMax).getD 0 0))).set 1
          (recenterMax cfg.maxForce.isSome dv (st.force.getD 1 0)
            ((optBroadcast cfg.maxForce st.lambdaMax).getD 1 0))).set 2
          (recenterMax cfg.maxForce.isSome dv (st.force.getD 2 0)
            ((optBroadcast cfg.maxForce st.lambdaMax).getD 2 0)) := by
  unfold updateLimit
  rw [hdv]
  simp only [hd, if_true]
  rw [chain3_fst, chain3_snd]
  cases cfg.minForce <;> cases cfg.maxForce <;> simp [optBroadcast]

/-- Characterisation of `updateLimit` with `maxForceVariation = dv` in
fixed mode (`m_dim = 1`): broadcasts, then one re-centering step at
index 0. -/
theorem updateLimit_char1 (cfg : Config) (st : ActuatorState) (dv : ℚ)
    (hdv : cfg.maxForceVariation = some dv) (hd : ¬ st.dim > 1) :
    (updateLimit cfg st).lambdaMin =
      (optBroadcast cfg.minForce st.lambdaMin).set 0
        (recenterMin cfg.minForce.isSome dv (st.force.getD 0 0)
          ((optBroadcast cfg.minForce st.lambdaMin).getD 0 0)) ∧
    (updateLimit cfg st).lambdaMax =
      (optBroadcast cfg.maxForce st.lambdaMax).set 0
        (recenterMax cfg.maxForce.isSome dv (st.force.getD 0 0)
          ((optBroadcast cfg.maxForce st.lambdaMax).getD 0 0)) := by
  unfold updateLimit
  rw [hdv]
  simp only [hd, if_false, recenterAt]
  cases cfg.minForce <;> cases cfg.maxForce <;> simp [optBroadcast, recenterAt]


/-- C7: `updateLimit()` is idempotent on the bounds: a second call
immediately after a first, with `force` and the configuration
unchanged, leaves `lambdaMin` and `lambdaMax` identical, for every
actuator state. -/
theorem C7_updateLimit_idempotent (cfg : Config) (st : ActuatorState) :
    (updateLimit cfg (updateLimit cfg st)).lambdaMin = (updateLimit cfg st).lambdaMin ∧
    (updateLimit cfg (updateLimit cfg st)).lambdaMax = (updateLimit cfg st).lambdaMax := by
  cases hdv : cfg.maxForceVariation with
  | none =>
    obtain ⟨h1, h2⟩ := updateLimit_char_none cfg st hdv
    obtain ⟨g1, g2⟩ := updateLimit_char_none cfg (updateLimit cfg st) hdv
    rw [g1, g2, h1, h2]
    constructor
    · cases cfg.minForce <;> simp [optBroadcast, broadcast_broadcast]
    · cases cfg.maxForce <;> simp [optBroadcast, broadcast_broadcast]
  | some dv =>
    by_cases hd : st.dim > 1
    · have hd2 : (updateLimit cfg st).dim > 1 := by rw [updateLimit_dim]; exact hd
      obtain ⟨h1, h2⟩ := updateLimit_char3 cfg st dv hdv hd
      obtain ⟨g1, g2⟩ := updateLimit_char3 cfg (updateLimit cfg st) dv hdv hd2
      rw [updateLimit_force] at g1 g2
      constructor
      · rw [g1]
        cases hmf : cfg.minForce with
        | some m =>
          rw [hmf] at h1
          have hA : optBroadcast (some m) (updateLimit cfg st).lambdaMin
              = optBroadcast (some m) st.lambdaMin := by
            simp only [optBroadcast]
            exact broadcast_length_eq m (updateLimit_lambdaMin_length cfg st)
          rw [hA]
          exact h1.symm
        | none =>
          rw [hmf] at h1
          simp only [optBroadcast, Option.isSome_none, recenterMin_false] at h1 ⊢
          rw [h1]
          exact set3_idem st.lambdaMin _ _ _
      · rw [g2]
        cases hmF : cfg.maxForce with
        | some M =>
          rw [hmF] at h2
          have hA : optBroadcast (some M) (updateLimit cfg st).lambdaMax
              = optBroadcast (some M) st.lambdaMax := by
            simp only [optBroadcast]
            exact broadcast_length_eq M (updateLimit_lambdaMax_length cfg st)
          rw [hA]
          exact h2.symm
        | none =>
          rw [hmF] at h2
          simp only [optBroadcast, Option.isSome_none, recenterMax_false] at h2 ⊢
          rw [h2]
          exact set3_idem st.lambdaMax _ _ _
    · have hd2 : ¬ (updateLimit cfg st).dim > 1 := by rw [updateLimit_dim]; exact hd
      obtain ⟨h1, h2⟩ := updateLimit_char1 cfg st dv hdv hd
      obtain ⟨g1, g2⟩ := updateLimit_char1 cfg (updateLimit cfg st) dv hdv hd2
      rw [updateLimit_force] at g1 g2
      constructor
      · rw [g1]
        cases hmf : cfg.minForce with
        | some m =>
          rw [hmf] at h1
          have hA : optBroadcast (some m) (updateLimit cfg st).lambdaMin
              = optBroadcast (some m) st.lambdaMin := by
            simp only [optBroadcast]
            exact broadcast_length_eq m (updateLimit_lambdaMin_length cfg st)
          rw [hA]
          exact h1.symm
        | none =>
          rw [hmf] at h1
          simp only [optBroadcast, Option.isSome_none, recenterMin_false] at h1 ⊢
          rw [h1]
          exact List.set_set _ _ _ _
      · rw [g2]
        cases hmF : cfg.maxForce with
        | some M =>
          rw [hmF] at h2
          have hA : optBroadcast (some M) (updateLimit cfg st).lambdaMax
              = optBroadcast (some M) st.lambdaMax := by
            simp only [optBroadcast]
            exact broadcast_length_eq M (updateLimit_lambdaMax_length cfg st)
          rw [hA]
          exact h2.symm
        | none =>
          rw [hmF] at h2
          simp only [optBroadcast, Option.isSome_none, recenterMax_false] at h2 ⊢
          rw [h2]
          exact List.set_set _ _ _ _


theorem broadcast_getD (v : ℚ) (l : List ℚ) (i : ℕ) (h : i < l.length) :
    (broadcast v l).getD i 0 = v := by
  simp [broadcast, List.getD, List.getElem?_map, List.getElem?_eq_getElem, h]

theorem getD_set3 (l : List ℚ) (u0 u1 u2 : ℚ) (hl : l.length = 3) :
    ((((l.set 0 u0).set 1 u1).set 2 u2).getD 0 0 = u0) ∧
    ((((l.set 0 u0).set 1 u1).set 2 u2).getD 1 0 = u1) ∧
    ((((l.set 0 u0).set 1 u1).set 2 u2).getD 2 0 = u2) := by
  obtain ⟨a, b, c, rfl⟩ := List.length_eq_three.mp hl
  exact ⟨rfl, rfl, rfl⟩

theorem getD_set1 (l : List ℚ) (u : ℚ) (hl : 0 < l.length) :
    (l.set 0 u).getD 0 0 = u := by
  cases l with
  | nil => simp at hl
  | cons x xs => rfl

/-- One entry of `lambdaMin` after the re-centering step never exceeds
the corresponding entry of `lambdaMax`, provided the rate budget is
non-negative and the pre-step entries are ordered whenever both bounds
are set. -/
theorem recenterMin_le_recenterMax (ms xs : Bool) (dv f a b : ℚ)
    (hdv : 0 ≤ dv) (hab : ms = true → xs = true → a ≤ b) :
    recenterMin ms dv f a ≤ recenterMax xs dv f b := by
  unfold recenterMin recenterMax
  split <;> split
  · linarith
  · rename_i h2
    push_neg at h2
    have hb := abs_lt.mp h2.1
    linarith [hb.1, hb.2]
  · rename_i h1 _
    push_neg at h1
    have ha := abs_lt.mp h1.1
    linarith [ha.1, ha.2]
  · rename_i h1 h2
    push_neg at h1
    push_neg at h2
    exact hab (by simpa using h1.2) (by simpa using h2.2)

/-- C8 (amended): after every `updateLimit()` call,
`lambdaMin[i] ≤ lambdaMax[i]` for every `i < dimension`, under the
claimed preconditions (`maxForceVariation ≥ 0` when set, `minForce ≤
maxForce` when both set) *and* the additional proviso that either
`maxForceVariation` is set, or both `minForce` and `maxForce` are set,
or neither is set and the bounds were already ordered before the call.
Without the proviso the claim fails: see the counterexample, where only
a negative `maxForce` is supplied. -/
theorem C8_bounds_ordered (cfg : Config) (st : ActuatorState)
    (hdv : ∀ dv, cfg.maxForceVariation = some dv → 0 ≤ dv)
    (hmm : ∀ m M, cfg.minForce = some m → cfg.maxForce = some M → m ≤ M)
    (hdim : st.dim = 1 ∨ st.dim = 3)
    (hmin : st.lambdaMin.length = st.dim) (hmax : st.lambdaMax.length = st.dim)
    (hf : st.force.length = st.dim)
    (hside : cfg.maxForceVariation.isSome = true ∨
      (cfg.minForce.isSome = true ∧ cfg.maxForce.isSome = true) ∨
      (cfg.minForce = none ∧ cfg.maxForce = none ∧
        ∀ i < st.dim, st.lambdaMin.getD i 0 ≤ st.lambdaMax.getD i 0)) :
    ∀ i < (updateLimit cfg st).dim,
      (updateLimit cfg st).lambdaMin.getD i 0 ≤ (updateLimit cfg st).lambdaMax.getD i 0 := by
  intro i hi
  rw [updateLimit_dim] at hi
  have hkey : cfg.minForce.isSome = true → cfg.maxForce.isSome = true →
      ∀ j, j < st.dim →
        (optBroadcast cfg.minForce st.lambdaMin).getD j 0 ≤
        (optBroadcast cfg.maxForce st.lambdaMax).getD j 0 := by
    intro hms hxs j hj
    obtain ⟨m, hm⟩ := Option.isSome_iff_exists.mp hms
    obtain ⟨M, hM⟩ := Option.isSome_iff_exists.mp hxs
    rw [hm, hM]
    simp only [optBroadcast]
    rw [broadcast_getD _ _ _ (by omega), broadcast_getD _ _ _ (by omega)]
    exact hmm m M hm hM
  cases hdvv : cfg.maxForceVariation with
  | some dv =>
    have hdv0 : 0 ≤ dv := hdv dv hdvv
    rcases hdim with h1 | h3
    · have hd : ¬ st.dim > 1 := by omega
      obtain ⟨c1, c2⟩ := updateLimit_char1 cfg st dv hdvv hd
      rw [c1, c2]
      have hi0 : i = 0 := by omega
      subst hi0
      rw [getD_set1 _ _ (by rw [optBroadcast_length]; omega),
        getD_set1 _ _ (by rw [optBroadcast_length]; omega)]
      exact recenterMin_le_recenterMax _ _ _ _ _ _ hdv0
        (fun a b => hkey a b 0 (by omega))
    · have hd : st.dim > 1 := by omega
      obtain ⟨c1, c2⟩ := updateLimit_char3 cfg st dv hdvv hd
      rw [c1, c2]
      have hAl : (optBroadcast cfg.minForce st.lambdaMin).length = 3 := by
        rw [optBroadcast_length]; omega
      have hBl : (optBroadcast cfg.maxForce st.lambdaMax).length = 3 := by
        rw [optBroadcast_length]; omega
      rw [h3] at hi
      interval_cases i
      · rw [(getD_set3 _ _ _ _ hAl).1, (getD_set3 _ _ _ _ hBl).1]
        exact recenterMin_le_recenterMax _ _ _ _ _ _ hdv0
          (fun a b => hkey a b 0 (by omega))
      · rw [(getD_set3 _ _ _ _ hAl).2.1, (getD_set3 _ _ _ _ hBl).2.1]
        exact recenterMin_le_recenterMax _ _ _ _ _ _ hdv0
          (fun a b => hkey a b 1 (by omega))
      · rw [(getD_set3 _ _ _ _ hAl).2.2, (getD_set3 _ _ _ _ hBl).2.2]
        exact recenterMin_le_recenterMax _ _ _ _ _ _ hdv0
          (fun a b => hkey a b 2 (by omega))
  | none =>
    obtain ⟨c1, c2⟩ := updateLimit_char_none cfg st hdvv
    rw [c1, c2]
    rcases hside with hs | ⟨hms, hxs⟩ | ⟨hmn, hxn, hinv⟩
    · rw [hdvv] at hs
      simp at hs
    · exact hkey hms hxs i hi
    · rw [hmn, hxn]
      simp only [optBroadcast]
      exact hinv i hi

/-- Counterexample to C8 as stated: with only `maxForce = -1` supplied
(so the claim's preconditions hold vacuously), after init the bounds at
the single axis are `lambdaMin[0] = 0 > -1 = lambdaMax[0]`. -/
theorem C8_bounds_ordered_counterexample :
    0 < (reinitState cfgScenario8 constructedState).dim ∧
    ¬ ((reinitState cfgScenario8 constructedState).lambdaMin.getD 0 0 ≤
       (reinitState cfgScenario8 constructedState).lambdaMax.getD 0 0) := by
  constructor <;>
    norm_num [reinitState, initData, initLimit, updateLimit, cfgScenario8, dirX,
      normSq, normThreshold, resizeFill, Config.initForceValue, broadcast,
      constructedState]

/-- Witness for C8 (amended) at the fully-bounded scenario
configuration. -/
theorem C8_bounds_ordered_witness :
    (updateLimit cfgScenario1 stScenario1).lambdaMin.getD 0 0 ≤
      (updateLimit cfgScenario1 stScenario1).lambdaMax.getD 0 0 :=
  C8_bounds_ordered cfgScenario1 stScenario1
    (fun dv h => (Option.some_inj.mp h) ▸ (by decide : (0:ℚ) ≤ 1))
    (fun m M hm hM => (Option.some_inj.mp hm) ▸ (Option.some_inj.mp hM) ▸
      (by decide : (-10:ℚ) ≤ 10))
    (Or.inl rfl) rfl rfl rfl (Or.inl rfl) 0 (by rw [updateLimit_dim]; decide)


theorem rowEntries_mem (indices : List ℕ) (size : ℕ) (dir : Vec3)
    (e : ℕ × Vec3) (he : e ∈ rowEntries indices size dir) :
    e.1 < size ∧ e.1 ∈ indices := by
  simp only [rowEntries, List.mem_map, List.mem_filter] at he
  obtain ⟨i, ⟨hi, hlt⟩, rfl⟩ := he
  exact ⟨by simpa using hlt, hi⟩

theorem rowEntries_mem_of (indices : List ℕ) (size : ℕ) (dir : Vec3)
    (i : ℕ) (hi : i ∈ indices) (hlt : i < size) :
    (i, dir) ∈ rowEntries indices size dir := by
  simp only [rowEntries, List.mem_map, List.mem_filter]
  exact ⟨i, ⟨hi, by simpa using hlt⟩, rfl⟩

theorem rowEntries_nil (size : ℕ) (dir : Vec3) : rowEntries [] size dir = [] := rfl

theorem normSq_div (d : Vec3) (n : ℚ) (hn : 0 < n) (h : n ^ 2 = normSq d) :
    normSq (fun k => d k / n) = 1 := by
  have hne : n ≠ 0 := ne_of_gt hn
  unfold normSq at h ⊢
  field_simp
  linarith [h]

/-- C4: `buildConstraintMatrix`, given a starting row offset, stores it
as `constraintIndex` and emits exactly `dimension` Jacobian rows: in
free mode row `j` holds the unit vector of world axis `j` at each point
index below the body point count; in fixed mode the single row holds
the direction normalized to unit length at each such index; indices at
or beyond the body point count are skipped; an empty index list still
produces the rows (with no entries); afterwards
`rowCount (m_nbLines) = dimension` and the solver's row counter has
advanced by exactly `dimension` — for every index list and body size. -/
theorem C4_buildConstraintMatrix (cfg : Config) (stateSize : ℕ) (dirNorm : ℚ)
    (st : ActuatorState) (cIndex : ℕ)
    (hdim : st.dim = 1 ∨ st.dim = 3)
    (hnorm : st.dim = 1 → 0 < dirNorm ∧ dirNorm ^ 2 = normSq cfg.direction) :
    (buildConstraintMatrix cfg stateSize dirNorm st cIndex).state.constraintIndex = cIndex ∧
    (buildConstraintMatrix cfg stateSize dirNorm st cIndex).rows.length = st.dim ∧
    (buildConstraintMatrix cfg stateSize dirNorm st cIndex).cIndex = cIndex + st.dim ∧
    (buildConstraintMatrix cfg stateSize dirNorm st cIndex).state.nbLines = st.dim ∧
    (st.dim = 3 → (buildConstraintMatrix cfg stateSize dirNorm st cIndex).rows =
      (List.range 3).map fun j => (cIndex + j, rowEntries cfg.indices stateSize (unitVec j))) ∧
    (st.dim = 1 →
      (buildConstraintMatrix cfg stateSize dirNorm st cIndex).rows =
        [(cIndex, rowEntries cfg.indices stateSize (fun k => cfg.direction k / dirNorm))] ∧
      normSq (fun k => cfg.direction k / dirNorm) = 1) ∧
    (∀ r ∈ (buildConstraintMatrix cfg stateSize dirNorm st cIndex).rows,
      ∀ e ∈ r.2, e.1 < stateSize ∧ e.1 ∈ cfg.indices) ∧
    (∀ i ∈ cfg.indices, i < stateSize →
      ∀ r ∈ (buildConstraintMatrix cfg stateSize dirNorm st cIndex).rows,
        ∃ v, (i, v) ∈ r.2) ∧
    (cfg.indices = [] →
      ∀ r ∈ (buildConstraintMatrix cfg stateSize dirNorm st cIndex).rows, r.2 = []) := by
  have hrows : ∀ r ∈ (buildConstraintMatrix cfg stateSize dirNorm st cIndex).rows,
      ∃ dir, r.2 = rowEntries cfg.indices stateSize dir := by
    intro r hr
    unfold buildConstraintMatrix at hr
    by_cases hgt : st.dim > 1
    · simp only [hgt, if_true, List.mem_map, List.mem_range] at hr
      obtain ⟨j, _, rfl⟩ := hr
      exact ⟨unitVec j, rfl⟩
    · simp only [hgt, if_false, List.mem_singleton] at hr
      subst hr
      exact ⟨_, rfl⟩
  rcases hdim with h1 | h3
  · have hgt : ¬ st.dim > 1 := by omega
    obtain ⟨hpos, hsq⟩ := hnorm h1
    refine ⟨?_, ?_, ?_, ?_, ?_, ?_, ?_, ?_, ?_⟩
    · unfold buildConstraintMatrix
      simp [hgt]
    · unfold buildConstraintMatrix
      simp [hgt, h1]
    · unfold buildConstraintMatrix
      simp [hgt, h1]
    · unfold buildConstraintMatrix
      simp [hgt, h1]
    · intro h
      omega
    · intro _
      constructor
      · unfold buildConstraintMatrix
        simp [hgt]
      · exact normSq_div cfg.direction dirNorm hpos hsq
    · intro r hr e he
      obtain ⟨dir, hdir⟩ := hrows r hr
      rw [hdir] at he
      exact rowEntries_mem _ _ _ _ he
    · intro i hi hlt r hr
      obtain ⟨dir, hdir⟩ := hrows r hr
      rw [hdir]
      exact ⟨dir, rowEntries_mem_of _ _ _ _ hi hlt⟩
    · intro hnil r hr
      obtain ⟨dir, hdir⟩ := hrows r hr
      rw [hdir, hnil, rowEntries_nil]
  · have hgt : st.dim > 1 := by omega
    refine ⟨?_, ?_, ?_, ?_, ?_, ?_, ?_, ?_, ?_⟩
    · unfold buildConstraintMatrix
      simp [hgt]
    · unfold buildConstraintMatrix
      simp [hgt, h3, totalSize]
    · unfold buildConstraintMatrix
      simp [hgt, h3, totalSize]
    · unfold buildConstraintMatrix
      simp [hgt, h3, totalSize]
    · intro _
      unfold buildConstraintMatrix
      simp [hgt, totalSize]
    · intro h
      omega
    · intro r hr e he
      obtain ⟨dir, hdir⟩ := hrows r hr
      rw [hdir] at he
      exact rowEntries_mem _ _ _ _ he
    · intro i hi hlt r hr
      obtain ⟨dir, hdir⟩ := hrows r hr
      rw [hdir]
      exact ⟨dir, rowEntries_mem_of _ _ _ _ hi hlt⟩
    · intro hnil r hr
      obtain ⟨dir, hdir⟩ := hrows r hr
      rw [hdir, hnil, rowEntries_nil]

/-- Witness for C4: free mode, `startOffset = 10`, body of size 1 with
one of the two point indices out of range. -/
theorem C4_buildConstraintMatrix_witness :
    (buildConstraintMatrix cfgScenario4 1 0 stScenario4 10).state.constraintIndex = 10 ∧
    (buildConstraintMatrix cfgScenario4 1 0 stScenario4 10).rows.length = 3 ∧
    (buildConstraintMatrix cfgScenario4 1 0 stScenario4 10).cIndex = 13 ∧
    (buildConstraintMatrix cfgScenario4 1 0 stScenario4 10).state.nbLines = 3 :=
  have h := C4_buildConstraintMatrix cfgScenario4 1 0 stScenario4 10 (Or.inr rfl)
    (fun h => absurd h (by decide))
  ⟨h.1, h.2.1, h.2.2.1, h.2.2.2.1⟩

theorem writeForce_length (dim : ℕ) (force lambda : List ℚ) :
    (writeForce dim force lambda).length = force.length := by
  unfold writeForce
  split <;> simp

/-- C5: `storeResults(lambda, delta)` with `delta` non-empty and
`lambda` of length at least `dimension` sets `displacement = delta[0]`,
copies `lambda[0..dimension)` into `force`, refreshes the bounds with
`updateLimit()` and only then forwards to the shared base behaviour
(`baseStore`); the state handed to the base still carries the stored
force and displacement. -/
theorem C5_storeResults (cfg : Config) (baseStore : ActuatorState → ActuatorState)
    (st : ActuatorState) (lambda delta : List ℚ)
    (hd : delta ≠ []) (hlam : st.dim ≤ lambda.length)
    (hf : st.force.length = st.dim) (hdim : st.dim = 1 ∨ st.dim = 3) :
    storeResults cfg baseStore st lambda delta
        = baseStore (updateLimit cfg (writeStage st lambda delta)) ∧
    (writeStage st lambda delta).displacement = delta.getD 0 0 ∧
    (∀ j < st.dim, (writeStage st lambda delta).force.getD j 0 = lambda.getD j 0) ∧
    (updateLimit cfg (writeStage st lambda delta)).displacement = delta.getD 0 0 ∧
    (∀ j < st.dim, (updateLimit cfg (writeStage st lambda delta)).force.getD j 0
        = lambda.getD j 0) := by
  have hforce : ∀ j < st.dim,
      (writeStage st lambda delta).force.getD j 0 = lambda.getD j 0 := by
    intro j hj
    rcases hdim with h1 | h3
    · have hj0 : j = 0 := by omega
      subst hj0
      unfold writeStage writeForce
      simp only [h1]
      rw [if_neg (by omega)]
      exact getD_set1 _ _ (by omega)
    · unfold writeStage writeForce
      rw [if_pos (by omega)]
      rw [h3] at hj
      interval_cases j
      · exact (getD_set3 _ _ _ _ (by omega)).1
      · exact (getD_set3 _ _ _ _ (by omega)).2.1
      · exact (getD_set3 _ _ _ _ (by omega)).2.2
  have hdisp : (writeStage st lambda delta).displacement = delta.getD 0 0 := by
    simp [writeStage]
  refine ⟨rfl, hdisp, hforce, ?_, ?_⟩
  · rw [updateLimit_displacement]
    exact hdisp
  · intro j hj
    rw [updateLimit_force]
    exact hforce j hj

/-- Witness for C5: the spec round-trip `storeResults([5.0], [0.2])`
(`0.2 = 1/5`) on a fixed-direction actuator. -/
theorem C5_storeResults_witness :
    (storeResults cfgScenario5 id stScenario5 [5] [1/5]).displacement = 1/5 ∧
    (storeResults cfgScenario5 id stScenario5 [5] [1/5]).force.getD 0 0 = 5 := by
  obtain ⟨h1, _, _, h4, h5⟩ := C5_storeResults cfgScenario5 id stScenario5 [5] [1/5]
    (by decide) (by decide) rfl (Or.inl rfl)
  constructor
  · rw [h1]
    simpa using h4
  · rw [h1]
    simpa using h5 0 (by decide)

/-- C9 (amended): `buildConstraintMatrix` absorbs every anomaly for
every input (out-of-range point indices are skipped, an empty index
list yields rows with no entries), and `storeResults` never fails
provided `delta` is non-empty and `lambda` has length at least
`dimension` (with the state sequences of their invariant lengths);
with an empty `delta` the unchecked access `delta[0]` is out of bounds
rather than absorbed — see the counterexample. -/
theorem C9_hot_path_absorbs (cfg : Config) (baseStore : ActuatorState → ActuatorState)
    (st : ActuatorState) (lambda delta : List ℚ)
    (hdim : st.dim = 1 ∨ st.dim = 3)
    (hd : delta ≠ [])
    (hlam : st.dim ≤ lambda.length)
    (hf : st.force.length = st.dim)
    (hmin : st.lambdaMin.length = st.dim) (hmax : st.lambdaMax.length = st.dim) :
    storeResultsChecked cfg baseStore st lambda delta
        = some (storeResults cfg baseStore st lambda delta) ∧
    ∀ (cfg' : Config) (size : ℕ) (dn : ℚ) (st' : ActuatorState) (ci : ℕ),
      (∀ r ∈ (buildConstraintMatrix cfg' size dn st' ci).rows, ∀ e ∈ r.2, e.1 < size) ∧
      (cfg'.indices = [] →
        ∀ r ∈ (buildConstraintMatrix cfg' size dn st' ci).rows, r.2 = []) := by
  have hn : (if st.dim > 1 then totalSize else 1) ≤ st.dim := by
    rcases hdim with h | h <;> simp [h, totalSize]
  constructor
  · unfold storeResultsChecked
    rw [if_neg hd, if_pos ⟨by omega, by omega⟩]
    unfold updateLimitChecked
    cases hdvv : cfg.maxForceVariation with
    | none => rfl
    | some dv =>
      rw [if_pos]
      · rfl
      · unfold writeStage
        simp only
        rw [writeForce_length]
        refine ⟨by omega, by omega, by omega⟩
  · intro cfg' size dn st' ci
    have hrows : ∀ r ∈ (buildConstraintMatrix cfg' size dn st' ci).rows,
        ∃ dir, r.2 = rowEntries cfg'.indices size dir := by
      intro r hr
      unfold buildConstraintMatrix at hr
      by_cases hgt : st'.dim > 1
      · simp only [hgt, if_true, List.mem_map, List.mem_range] at hr
        obtain ⟨j, _, rfl⟩ := hr
        exact ⟨unitVec j, rfl⟩
      · simp only [hgt, if_false, List.mem_singleton] at hr
        subst hr
        exact ⟨_, rfl⟩
    constructor
    · intro r hr e he
      obtain ⟨dir, hdir⟩ := hrows r hr
      rw [hdir] at he
      exact (rowEntries_mem _ _ _ _ he).1
    · intro hnil r hr
      obtain ⟨dir, hdir⟩ := hrows r hr
      rw [hdir, hnil, rowEntries_nil]

/-- Counterexample to C9 as stated: with an empty `delta` sequence the
unchecked read `delta[0]` in `storeResults` is out of bounds — the
anomaly is not absorbed. -/
theorem C9_hot_path_absorbs_counterexample :
    storeResultsChecked cfgScenario5 id stScenario5 [5] [] = none := rfl

/-- Witness for C9 (amended): a well-formed call on a fixed-direction
actuator succeeds. -/
theorem C9_hot_path_absorbs_witness :
    storeResultsChecked cfgScenario5 id stScenario5 [5] [1/5]
      = some (storeResults cfgScenario5 id stScenario5 [5] [1/5]) :=
  (C9_hot_path_absorbs cfgScenario5 id stScenario5 [5] [1/5] (Or.inl rfl)
    (by decide) (by decide) rfl rfl rfl).1

/-- C10 (amended): in `initData`, the write `lambdaInit[0] = initForce`
is performed before `lambdaInit` is resized; it is within bounds on
every run where `lambdaInit` is non-empty at entry — in particular on
every run after a completed init, since init leaves `lambdaInit` with
length `dimension ≥ 1` — but on the very first init after construction
`lambdaInit` is empty and the access is out of bounds (see the
counterexample). -/
theorem C10_lambdaInit_write_before_resize (cfg : Config) (st : ActuatorState)
    (h : st.lambdaInit ≠ []) :
    initDataChecked cfg st = some (initData cfg st) ∧
    (reinitState cfg st).lambdaInit ≠ [] := by
  constructor
  · unfold initDataChecked
    cases cfg.initForce with
    | none => rfl
    | some v => rw [if_neg h]
  · rw [← List.length_pos]
    unfold reinitState
    rw [initLimit_lambdaInit, initData_lambdaInit_length, initData_dim]
    split <;> omega

/-- Counterexample to C10 as stated: on the very first `initData` run
after construction, with `initForce` explicitly set, `m_lambdaInit` is
still empty when `m_lambdaInit[0]` is written, so the access is out of
bounds. -/
theorem C10_lambdaInit_write_before_resize_counterexample :
    initDataChecked cfgScenario10 constructedState = none := rfl

/-- Witness for C10 (amended) on a state left by a previous init. -/
theorem C10_lambdaInit_write_before_resize_witness :
    initDataChecked cfgScenario10 stScenario5
        = some (initData cfgScenario10 stScenario5) ∧
    (reinitState cfgScenario10 stScenario5).lambdaInit ≠ [] :=
  C10_lambdaInit_write_before_resize cfgScenario10 stScenario5 (by decide)

end ForcePointActuator
